import Mathlib

/-!
Shallow embedding of the Intelligent-Procurement-Agent repository
(src/src/memory.py, src/src/agent.py) and proofs about the claims of its
specification.

External collaborators (the language model, the embedding provider, the
ChromaDB vector store, the ADK agent runner) are modelled as oracles: each
call's outcome is a field of an oracle structure, an `Except` value when the
call can raise.  The vector store is modelled as a list of records with the
atomic-insert contract its specification assigns to it (section 4.1).
Python strings are Lean strings; `str.lower`, `str.upper` and `str.strip`
are modelled on their ASCII behaviour (the constants the code compares
against are all ASCII).
-/

namespace Proc

/-- Values produced by Python's json.loads: null, booleans, numbers, strings,
arrays and objects.  An integer literal loads as a Python int (rendered in
decimal); any other numeric literal loads as a float, kept here as its
lexeme.  Object member lists keep source order, duplicate keys included;
lookups take the last occurrence, as a Python dict built by json.loads
would. -/
inductive JValue where
  | null
  | bool (b : Bool)
  | int (n : Int)
  | float (lexeme : String)
  | str (s : String)
  | arr (elems : List JValue)
  | obj (fields : List (String × JValue))

/-- Python dict.get on an object's member list: value of the key's last
occurrence (json.loads keeps the last duplicate), None when absent. -/
def dictGet (d : List (String × JValue)) (k : String) : Option JValue :=
  ((d.filter (fun p => p.1 = k)).getLast?).map (fun p => p.2)

/-- Python dict assignment d[k] = v: replace the value in place when the key
exists, append the pair otherwise (insertion order preserved). -/
def dictSet (d : List (String × JValue)) (k : String) (v : JValue) :
    List (String × JValue) :=
  if d.any (fun p => p.1 = k) then
    d.map (fun p => if p.1 = k then (k, v) else p)
  else d ++ [(k, v)]

/-- Rendering of a value inside a Python f-string (str()).  None renders as
"None", booleans as "True"/"False", ints in decimal, a str as itself.
Floats render as their lexeme and collections as opaque markers: an
approximation of CPython's repr, never exercised by a claim (every decision
block field a claim renders is a string, an int or absent). -/
def pyStr : JValue → String
  | JValue.null => "None"
  | JValue.bool true => "True"
  | JValue.bool false => "False"
  | JValue.int n => toString n
  | JValue.float lexeme => lexeme
  | JValue.str s => s
  | JValue.arr _ => "<list>"
  | JValue.obj _ => "<dict>"

/-- Rendering of a dict.get result inside an f-string: a missing key (None)
renders as "None". -/
def pyStrOpt : Option JValue → String
  | none => "None"
  | some v => pyStr v

/-- ASCII lower-casing, modelling str.lower on the inputs the code compares
(the affirmative tokens are ASCII). -/
def pyLower (s : String) : String := String.mk (s.data.map Char.toLower)

/-- ASCII upper-casing, modelling str.upper on the inputs the code compares
(the category keywords are ASCII). -/
def pyUpper (s : String) : String := String.mk (s.data.map Char.toUpper)

/-- ASCII whitespace str.strip removes: space, tab, newline, CR, vertical
tab, form feed. -/
def isPySpace (c : Char) : Bool :=
  c = ' ' ∨ c = '\t' ∨ c = '\n' ∨ c = '\r' ∨ c = '\x0b' ∨ c = '\x0c'

/-- Python str.strip with no argument: drop leading and trailing
whitespace. -/
def pyStrip (s : String) : String :=
  String.mk (((s.data.dropWhile isPySpace).reverse.dropWhile isPySpace).reverse)

/-- Occurrence of one character list at the head of, or anywhere inside,
another. -/
def listInfixOf (needle : List Char) : List Char → Bool
  | [] => needle.isEmpty
  | c :: t => needle.isPrefixOf (c :: t) || listInfixOf needle t

/-- Python's substring test (needle in haystack). -/
def strIn (needle haystack : String) : Bool :=
  listInfixOf needle.data haystack.data

/-! JSON parsing, mirroring json.loads as the orchestrator uses it:
whitespace-separated tokens, strings with escapes (strict mode: raw control
characters inside a string are rejected), numbers, true/false/null and the
non-standard NaN/Infinity constants CPython accepts, one value followed by
nothing but whitespace ("Extra data" otherwise). -/

/-- Whitespace json.loads skips between tokens: space, tab, newline, CR. -/
def jsonWs (c : Char) : Bool := c = ' ' ∨ c = '\t' ∨ c = '\n' ∨ c = '\r'

/-- Drop leading JSON whitespace. -/
def skipWs : List Char → List Char
  | [] => []
  | c :: cs => if jsonWs c then skipWs cs else c :: cs

/-- Value of one hex digit. -/
def hexVal (c : Char) : Option Nat :=
  if '0' ≤ c ∧ c ≤ '9' then some (c.toNat - '0'.toNat)
  else if 'a' ≤ c ∧ c ≤ 'f' then some (c.toNat - 'a'.toNat + 10)
  else if 'A' ≤ c ∧ c ≤ 'F' then some (c.toNat - 'A'.toNat + 10)
  else none

/-- Four hex digits of a \u escape. -/
def parseHex4 : List Char → Option (Nat × List Char)
  | a :: b :: c :: d :: rest => do
    let va ← hexVal a
    let vb ← hexVal b
    let vc ← hexVal c
    let vd ← hexVal d
    pure (((va * 16 + vb) * 16 + vc) * 16 + vd, rest)
  | _ => none

/-- Body of a JSON string literal, after its opening quote: returns the
decoded characters and the rest of the input past the closing quote.
Escapes are the eight JSON ones plus \uXXXX; a \u surrogate pair decodes to
one character (a lone surrogate, which CPython would keep, has no Char and
is rejected here — never exercised by a claim).  Strict mode: an unescaped
control character is an error. -/
def parseJString (fuel : Nat) (cs : List Char) (acc : List Char) :
    Option (String × List Char) :=
  match fuel, cs with
  | 0, _ => none
  | _ + 1, [] => none
  | f + 1, c :: rest =>
    if c = '"' then some (String.mk acc.reverse, rest)
    else if c = '\\' then
      match rest with
      | [] => none
      | e :: rest2 =>
        if e = '"' then parseJString f rest2 ('"' :: acc)
        else if e = '\\' then parseJString f rest2 ('\\' :: acc)
        else if e = '/' then parseJString f rest2 ('/' :: acc)
        else if e = 'b' then parseJString f rest2 ('\x08' :: acc)
        else if e = 'f' then parseJString f rest2 ('\x0c' :: acc)
        else if e = 'n' then parseJString f rest2 ('\n' :: acc)
        else if e = 'r' then parseJString f rest2 ('\r' :: acc)
        else if e = 't' then parseJString f rest2 ('\t' :: acc)
        else if e = 'u' then
          match parseHex4 rest2 with
          | none => none
          | some (code, rest3) =>
            if 0xD800 ≤ code ∧ code ≤ 0xDBFF then
              match rest3 with
              | '\\' :: 'u' :: rest4 =>
                match parseHex4 rest4 with
                | some (low, rest5) =>
                  if 0xDC00 ≤ low ∧ low ≤ 0xDFFF then
                    let cp := 0x10000 + (code - 0xD800) * 0x400 + (low - 0xDC00)
                    if _h : cp.isValidChar then
                      parseJString f rest5 (Char.ofNat cp :: acc)
                    else none
                  else none
                | none => none
              | _ => none
            else if 0xDC00 ≤ code ∧ code ≤ 0xDFFF then none
            else if _h : code.isValidChar then
              parseJString f rest3 (Char.ofNat code :: acc)
            else none
        else none
    else if c.toNat < 0x20 then none
    else parseJString f rest (c :: acc)

/-- Decimal digit test. -/
def isDig (c : Char) : Bool := '0' ≤ c ∧ c ≤ '9'

/-- Longest leading run of decimal digits. -/
def takeDigits : List Char → List Char × List Char
  | [] => ([], [])
  | c :: cs =>
    if isDig c then
      let (ds, rest) := takeDigits cs
      (c :: ds, rest)
    else ([], c :: cs)

/-- Numeric value of a digit run. -/
def digitsToNat (ds : List Char) : Nat :=
  ds.foldl (fun acc c => acc * 10 + (c.toNat - '0'.toNat)) 0

/-- A JSON number token, longest match of CPython's NUMBER_RE
(-?(0|[1-9]d*)(.d+)?([eE][-+]?d+)?): an optional fraction or exponent that
does not complete is left unconsumed, exactly as the backtracking regex
leaves it.  A lexeme with neither fraction nor exponent loads as an int;
any other as a float. -/
def parseNumber (cs : List Char) : Option (JValue × List Char) :=
  let (neg, cs1) := match cs with
    | '-' :: r => (true, r)
    | _ => (false, cs)
  match cs1 with
  | [] => none
  | c :: _ =>
    if ¬ isDig c then none
    else
      let (intDs, rest1) :=
        if c = '0' then ([c], cs1.tail)
        else takeDigits cs1
      let (fracDs, rest2) :=
        match rest1 with
        | '.' :: r =>
          let (ds, rr) := takeDigits r
          if ds.isEmpty then (([] : List Char), rest1) else (ds, rr)
        | _ => ([], rest1)
      let (expDs, rest3) :=
        match rest2 with
        | 'e' :: '+' :: r | 'E' :: '+' :: r | 'e' :: '-' :: r | 'E' :: '-' :: r
        | 'e' :: r | 'E' :: r =>
          let (ds, rr) := takeDigits r
          if ds.isEmpty then (([] : List Char), rest2)
          else (rest2.take (rest2.length - rr.length), rr)
        | _ => ([], rest2)
      if fracDs.isEmpty ∧ expDs.isEmpty then
        let n : Int := Int.ofNat (digitsToNat intDs)
        some (JValue.int (if neg then -n else n), rest2)
      else
        let lexeme := String.mk ((if neg then ['-'] else []) ++ intDs ++
          (if fracDs.isEmpty then [] else '.' :: fracDs) ++ expDs)
        some (JValue.float lexeme, rest3)

mutual

/-- One JSON value at the head of the input (leading whitespace allowed),
with the unconsumed rest.  Fuel bounds the recursion depth; the callers
supply more fuel than any input of that length can use. -/
def parseValue : Nat → List Char → Option (JValue × List Char)
  | 0, _ => none
  | f + 1, cs₀ =>
    match skipWs cs₀ with
    | [] => none
    | '"' :: rest =>
      (parseJString (rest.length + 1) rest []).map (fun p => (JValue.str p.1, p.2))
    | '{' :: rest =>
      (match skipWs rest with
       | '}' :: rest2 => some (JValue.obj [], rest2)
       | cs' => parseMembers f cs' [])
    | '[' :: rest =>
      (match skipWs rest with
       | ']' :: rest2 => some (JValue.arr [], rest2)
       | cs' => parseElements f cs' [])
    | 't' :: 'r' :: 'u' :: 'e' :: rest => some (JValue.bool true, rest)
    | 'f' :: 'a' :: 'l' :: 's' :: 'e' :: rest => some (JValue.bool false, rest)
    | 'n' :: 'u' :: 'l' :: 'l' :: rest => some (JValue.null, rest)
    | 'N' :: 'a' :: 'N' :: rest => some (JValue.float "nan", rest)
    | 'I' :: 'n' :: 'f' :: 'i' :: 'n' :: 'i' :: 't' :: 'y' :: rest =>
      some (JValue.float "inf", rest)
    | '-' :: 'I' :: 'n' :: 'f' :: 'i' :: 'n' :: 'i' :: 't' :: 'y' :: rest =>
      some (JValue.float "-inf", rest)
    | cs => parseNumber cs

/-- Members of an object, after its opening brace (the empty object was
handled by the caller): key, colon, value, then a comma or the closing
brace. -/
def parseMembers : Nat → List Char → List (String × JValue) →
    Option (JValue × List Char)
  | 0, _, _ => none
  | f + 1, cs, acc =>
    match skipWs cs with
    | '"' :: rest =>
      match parseJString (rest.length + 1) rest [] with
      | none => none
      | some (key, rest1) =>
        match skipWs rest1 with
        | ':' :: rest2 =>
          match parseValue f rest2 with
          | none => none
          | some (v, rest3) =>
            match skipWs rest3 with
            | ',' :: rest4 => parseMembers f rest4 (acc ++ [(key, v)])
            | '}' :: rest4 => some (JValue.obj (acc ++ [(key, v)]), rest4)
            | _ => none
        | _ => none
    | _ => none

/-- Elements of an array, after its opening bracket (the empty array was
handled by the caller). -/
def parseElements : Nat → List Char → List JValue →
    Option (JValue × List Char)
  | 0, _, _ => none
  | f + 1, cs, acc =>
    match parseValue f cs with
    | none => none
    | some (v, rest) =>
      match skipWs rest with
      | ',' :: rest2 => parseElements f rest2 (acc ++ [v])
      | ']' :: rest2 => some (JValue.arr (acc ++ [v]), rest2)
      | _ => none

end

/-- json.loads on a character list: one value, then nothing but whitespace
(CPython raises "Extra data" otherwise); None models the raised
JSONDecodeError.  The fuel 2*length+2 exceeds what any input of that length
can consume (every recursive step eats at least one character). -/
def jsonLoads (cs : List Char) : Option JValue :=
  match parseValue (2 * cs.length + 2) cs with
  | none => none
  | some (v, rest) => if (skipWs rest).isEmpty then some v else none

/-! The orchestrator's decision-block extraction (agent.py, extract_json). -/

/-- Index of the last occurrence of a character. -/
def lastIdxOf (cs : List Char) (c : Char) : Option Nat :=
  match List.findIdx? (fun x => x = c) cs.reverse with
  | none => none
  | some r => some (cs.length - 1 - r)

/-- The span the greedy regex r"\x7b.*\x7d" with re.DOTALL matches: from the
first opening brace to the last closing brace of the whole text, provided
the latter comes after the former (re.search takes the leftmost starting
position, and the greedy dot-star, with DOTALL letting it cross newlines,
extends the match to the last closing brace). -/
def braceSpan (text : String) : Option (List Char) :=
  let cs := text.data
  match List.findIdx? (fun x => x = '{') cs, lastIdxOf cs '}' with
  | some i, some j => if i < j then some ((cs.drop i).take (j - i + 1)) else none
  | _, _ => none

/-- ADKProcurementAgent.extract_json: match the greedy brace span and
json.loads it; any failure (no span, or the span is not one valid JSON
value) is swallowed and yields None.  A successful parse of a span that
starts with an opening brace is always an object, returned here as its
member list. -/
def extract_json (text : String) : Option (List (String × JValue)) :=
  match braceSpan text with
  | none => none
  | some span =>
    match jsonLoads span with
    | some (JValue.obj fields) => some fields
    | _ => none

/-- Index (relative to the character after an opening brace) of the brace
that closes it, by plain depth counting. -/
def balancedCloseAux : List Char → Nat → Nat → Option Nat
  | [], _, _ => none
  | c :: rest, depth, idx =>
    if c = '{' then balancedCloseAux rest (depth + 1) (idx + 1)
    else if c = '}' then
      if depth = 1 then some idx else balancedCloseAux rest (depth - 1) (idx + 1)
    else balancedCloseAux rest depth (idx + 1)

/-- The balanced brace-delimited region starting at index i, when index i
holds an opening brace that is closed. -/
def regionAt (cs : List Char) (i : Nat) : Option (List Char) :=
  match cs.drop i with
  | '{' :: rest =>
    match balancedCloseAux rest 1 0 with
    | none => none
    | some jrel => some ((cs.drop i).take (jrel + 2))
  | _ => none

/-- Extraction rule as the specification words it (sections 4.6 and 9): the
last balanced brace-delimited region of the response text that parses as
the expected object.  Stated from the spec's words, to be compared with
extract_json, the rule the source implements. -/
def specLastBalancedBlock (text : String) : Option (List (String × JValue)) :=
  let cs := text.data
  ((List.range cs.length).reverse).findSome? (fun i =>
    match regionAt cs i with
    | none => none
    | some region =>
      match jsonLoads region with
      | some (JValue.obj fields) => some fields
      | _ => none)

/-! The memory layer (memory.py).  The ChromaDB collection is a list of
records; collection.add is the atomic insert of the VectorStore contract
(spec section 4.1), collection.count its length, collection.query an oracle
constrained by that contract where a theorem needs it.  The fact-extraction
and embedding calls are oracles that may raise a provider error. -/

/-- A stored memory: id, fact text, embedding vector and flat metadata. -/
structure MemoryRecord where
  id : String
  fact : String
  vector : List Rat
  metadata : List (String × JValue)

namespace MemoryLayer

/-- Outcomes of the external calls one MemoryLayer.add performs:
_extract_facts (LLM completion, stripped), _get_embedding, uuid4, and the
collection.add insert (None = success; atomic per the VectorStore
contract). -/
structure AddOracle where
  extractResult : Except String String
  embedResult : Except String (List Rat)
  freshId : String
  insertError : Option String

/-- MemoryLayer.add: extract the fact, embed it, draw a fresh id, merge the
metadata with original_input and the (hard-coded placeholder) timestamp,
then insert.  Returns the raised error or the extracted fact, together with
the store as it stands after the call; a failing step leaves the store as
it was, the steps before the insert because they write nothing, the insert
because it is atomic. -/
def add (o : AddOracle) (store : List MemoryRecord) (user_input : String)
    (metadata : Option (List (String × JValue))) :
    Except String String × List MemoryRecord :=
  match o.extractResult with
  | .error e => (.error e, store)
  | .ok fact =>
    match o.embedResult with
    | .error e => (.error e, store)
    | .ok vec =>
      let meta0 := metadata.getD []
      let meta1 := dictSet meta0 "original_input" (JValue.str user_input)
      let meta := dictSet meta1 "timestamp" (JValue.str "2024-01-01T12:00:00")
      match o.insertError with
      | some e => (.error e, store)
      | none => (.ok fact, store ++ [⟨o.freshId, fact, vec, meta⟩])

/-- Shape of a chromadb collection.query result as the code reads it: outer
lists with one inner list per query (the code sends one query). -/
structure QueryResult where
  documents : List (List String)
  metadatas : List (List (List (String × JValue)))
  distances : List (List Rat)

/-- Outcomes of the external calls one MemoryLayer.search performs on a
non-empty store: _get_embedding and collection.query. -/
structure SearchOracle where
  embedResult : Except String (List Rat)
  queryResult : QueryResult

/-- One reformatted search hit: fact, metadata, score (the store's native
distance). -/
structure MemItem where
  fact : String
  metadata : List (String × JValue)
  score : Rat

/-- The reformatting loop of MemoryLayer.search: for each document of the
first query's results, pair it with its metadata and distance (0 when the
distances list is falsy); running out of metadata or distances is the
IndexError the Python indexing would raise. -/
def buildItems : List String → List (List (String × JValue)) →
    Option (List Rat) → Except String (List MemItem)
  | [], _, _ => .ok []
  | doc :: ds, metas, distsOpt =>
    match metas with
    | [] => .error "IndexError"
    | meta :: ms =>
      match distsOpt with
      | none =>
        match buildItems ds ms none with
        | .error e => .error e
        | .ok rest => .ok (⟨doc, meta, 0⟩ :: rest)
      | some dl =>
        match dl with
        | [] => .error "IndexError"
        | dist :: dls =>
          match buildItems ds ms (some dls) with
          | .error e => .error e
          | .ok rest => .ok (⟨doc, meta, dist⟩ :: rest)

/-- Reformatting of a query result (memory.py lines 110-130): nothing when
the outer documents list is falsy, else the loop over the first query's
documents. -/
def reformat (qr : QueryResult) : Except String (List MemItem) :=
  match qr.documents with
  | [] => .ok []
  | d0 :: _ =>
    match d0 with
    | [] => .ok []
    | _ :: _ =>
      match qr.metadatas with
      | [] => .error "IndexError"
      | m0 :: _ =>
        match qr.distances with
        | [] => buildItems d0 m0 none
        | t0 :: _ => buildItems d0 m0 (some t0)

/-- MemoryLayer.search: an empty store answers with the empty list before
any provider call; otherwise the query is embedded and the store queried
for min(limit, count) nearest records (a non-positive n_results is the
InvalidArgument of the VectorStore contract).  The second component counts
the embedding-provider calls the run performed. -/
def search (o : SearchOracle) (store : List MemoryRecord) (_query : String)
    (limit : Nat) : Except String (List MemItem) × Nat :=
  let count := store.length
  if count = 0 then (.ok [], 0)
  else
    match o.embedResult with
    | .error e => (.error e, 1)
    | .ok _ =>
      let n := min limit count
      if n = 0 then (.error "InvalidArgument", 1)
      else (reformat o.queryResult, 1)

/-- The VectorStore contract for one query asking for n results (spec
section 4.1): one inner list per outer key, aligned lengths, at most n
hits, distances in ascending order. -/
def QueryContract (n : Nat) (qr : QueryResult) : Prop :=
  ∃ d0 m0 t0, qr.documents = [d0] ∧ qr.metadatas = [m0] ∧
    qr.distances = [t0] ∧ d0.length ≤ n ∧ m0.length = d0.length ∧
    t0.length = d0.length ∧ List.Sorted (· ≤ ·) t0

end MemoryLayer

/-! The orchestrator (agent.py, class ADKProcurementAgent). -/

/-- Mutable fields of the orchestrator the claims concern: the single-slot
pending order (the parsed decision block, or None) and the memory store. -/
structure AgentState where
  pending_order : Option (List (String × JValue))
  memory : List MemoryRecord

/-- The response dict process_message hands back to the caller. -/
structure Resp where
  response : String
  reasoning : String

/-- Outcomes of the external calls one process_message may perform: the
classification completion (its message content, or a provider error), the
agent-runner loop (the accumulated response text, or the raised error), and
memory-add outcomes for the STORE_FACT branch. -/
structure Oracles where
  classify : Except String String
  runner : Except String String
  addO : MemoryLayer.AddOracle

/-- Python truthiness of the pending_order field: None and the empty dict
are falsy, a non-empty dict is truthy. -/
def pendingTruthy : Option (List (String × JValue)) → Bool
  | none => false
  | some d => ¬ d.isEmpty

/-- The comparison json_data.get("status") == "PAUSE_APPROVAL_NEEDED": only
the exact string compares equal; a missing key (None) or any other value
does not. -/
def isPauseStatus : Option JValue → Bool
  | some (JValue.str s) => s = "PAUSE_APPROVAL_NEEDED"
  | _ => false

/-- ADKProcurementAgent.get_intent: a truthy pending order short-circuits
to APPROVAL_REPLY; otherwise the classification completion's reply is
stripped, upper-cased and scanned for the category keywords, any failure
or unmatched reply defaulting to CHAT. -/
def get_intent (st : AgentState) (classify : Except String String) : String :=
  if pendingTruthy st.pending_order then "APPROVAL_REPLY"
  else
    match classify with
    | .error _ => "CHAT"
    | .ok content =>
      let intent := pyUpper (pyStrip content)
      if strIn "STORE_FACT" intent then "STORE_FACT"
      else if strIn "PROCUREMENT" intent then "PROCUREMENT_REQUEST"
      else "CHAT"

/-- ADKProcurementAgent.handle_approval: an input whose lower-casing is one
of the four affirmative tokens confirms the order, anything else cancels
it; both branches clear pending_order first.  The confirmation branch with
no pending order is the AttributeError order.get on None would raise
(unreachable through process_message, whose routing sends only truthy
pending states here). -/
def handle_approval (st : AgentState) (user_input : String) :
    Except String Resp × AgentState :=
  if pyLower user_input ∈ (["yes", "y", "approve", "ok"] : List String) then
    match st.pending_order with
    | some order =>
      (.ok ⟨"✅ **Order Confirmed**.\nPlaced order with " ++
          pyStrOpt (dictGet order "selected_vendor") ++ ".",
        "User manually approved."⟩,
       { st with pending_order := none })
    | none => (.error "AttributeError", { st with pending_order := none })
  else
    (.ok ⟨"❌Order Cancelled.", "User denied."⟩,
     { st with pending_order := none })

/-- ADKProcurementAgent.process_message: classify, then route.  APPROVAL
goes to handle_approval; STORE_FACT to MemoryLayer.add, whose failure
propagates uncaught; PROCUREMENT_REQUEST and CHAT run the agent loop in a
try-block whose failure is caught and surfaced as an error response with
the state untouched.  A successful run extracts the decision block: a
truthy extracted object with status PAUSE_APPROVAL_NEEDED becomes the
pending order with an approval request surfaced; any other truthy object
surfaces the order-placed summary; a falsy result (no block, or the empty
object) surfaces the raw response text. -/
def process_message (st : AgentState) (user_input : String) (o : Oracles) :
    Except String Resp × AgentState :=
  let intent := get_intent st o.classify
  if intent = "APPROVAL_REPLY" then handle_approval st user_input
  else if intent = "STORE_FACT" then
    match MemoryLayer.add o.addO st.memory user_input none with
    | (.ok fact, store') =>
      (.ok ⟨"✅ Learned: " ++ fact, "Action: INGESTION via MemoryLayer"⟩,
       { st with memory := store' })
    | (.error e, store') => (.error e, { st with memory := store' })
  else
    match o.runner with
    | .error e => (.ok ⟨"Error: " ++ e, e⟩, st)
    | .ok response_text =>
      let log := "ADK Agent Response:\n" ++ response_text
      match extract_json response_text with
      | some jd =>
        if jd.isEmpty then (.ok ⟨response_text, log⟩, st)
        else if isPauseStatus (dictGet jd "status") then
          (.ok ⟨"⚠️ **Approval Required**\nReason: " ++
              pyStrOpt (dictGet jd "reasoning") ++ "\nCost: " ++
              pyStrOpt (dictGet jd "total_cost") ++ "\nProceed? (y/n)", log⟩,
           { st with pending_order := some jd })
        else
          (.ok ⟨"✅ **Order Placed**\nVendor: " ++
              pyStrOpt (dictGet jd "selected_vendor") ++ "\nCost: " ++
              pyStrOpt (dictGet jd "total_cost") ++ "\nReason: " ++
              pyStrOpt (dictGet jd "reasoning"), log⟩, st)
      | none => (.ok ⟨response_text, log⟩, st)

/-! Concrete fixtures used by witnesses and counterexamples. -/

/-- A memory-add oracle whose three external calls all succeed. -/
def sampleAdd : MemoryLayer.AddOracle :=
  ⟨.ok "Cement limit is 50000", .ok [1], "id-1", none⟩

/-- The decision block of pauseText as json.loads reads it. -/
def pauseJd : List (String × JValue) :=
  [("selected_vendor", JValue.str "BuildCo"),
   ("price_per_unit", JValue.int 300),
   ("total_cost", JValue.int 60000),
   ("status", JValue.str "PAUSE_APPROVAL_NEEDED"),
   ("reasoning", JValue.str "over limit")]

/-- An agent response: prose, then a PAUSE_APPROVAL_NEEDED decision block. -/
def pauseText : String :=
  "Total 60000 exceeds the limit 50000. \x7b\"selected_vendor\": \"BuildCo\", \"price_per_unit\": 300, \"total_cost\": 60000, \"status\": \"PAUSE_APPROVAL_NEEDED\", \"reasoning\": \"over limit\"\x7d"

/-- The decision block of placedText as json.loads reads it. -/
def placedJd : List (String × JValue) :=
  [("selected_vendor", JValue.str "CemCo"),
   ("price_per_unit", JValue.int 90),
   ("total_cost", JValue.int 9000),
   ("status", JValue.str "ORDER_PLACED"),
   ("reasoning", JValue.str "within limit")]

/-- An agent response: prose, then an ORDER_PLACED decision block. -/
def placedText : String :=
  "All within limits. \x7b\"selected_vendor\": \"CemCo\", \"price_per_unit\": 90, \"total_cost\": 9000, \"status\": \"ORDER_PLACED\", \"reasoning\": \"within limit\"\x7d"

/-- A response holding two balanced objects: the greedy first-to-last brace
span covers both and is not valid JSON, while the last balanced region is a
well-formed PAUSE_APPROVAL_NEEDED decision block. -/
def c6text : String :=
  "\x7b\"a\": 1\x7d and \x7b\"status\": \"PAUSE_APPROVAL_NEEDED\"\x7d"

/-- Oracles replaying c6text as a successful agent run. -/
def c6oracle : Oracles := ⟨.ok "PROCUREMENT_REQUEST", .ok c6text, sampleAdd⟩

/-- A response whose extracted object has no status, no vendor and no
reasoning field. -/
def c10textA : String := "ok \x7b\"total_cost\": 5\x7d"

/-- Oracles replaying c10textA as a successful agent run. -/
def c10oracleA : Oracles := ⟨.ok "CHAT", .ok c10textA, sampleAdd⟩

/-- A response whose brace span parses to the empty object, which Python
treats as falsy. -/
def c10textB : String := "x \x7b\x7d y"

/-- Oracles replaying c10textB as a successful agent run. -/
def c10oracleB : Oracles := ⟨.ok "CHAT", .ok c10textB, sampleAdd⟩

/-- A two-record store for the search witness. -/
def searchStore : List MemoryRecord :=
  [⟨"id-1", "fact one", [1], []⟩, ⟨"id-2", "fact two", [1], []⟩]

/-- A query result for searchStore satisfying the VectorStore contract for
two requested results. -/
def searchQr : MemoryLayer.QueryResult :=
  ⟨[["fact one", "fact two"]], [[[], []]], [[0, 1]]⟩

/-- A search oracle whose embedding call succeeds and whose store query
answers searchQr. -/
def searchOracle : MemoryLayer.SearchOracle := ⟨.ok [1], searchQr⟩

/-- The items MemoryLayer.search reformats searchQr into. -/
def searchItems : List MemoryLayer.MemItem :=
  [⟨"fact one", [], 0⟩, ⟨"fact two", [], 1⟩]

/-! Helper lemmas shared by the claim theorems. -/

/-- A dict whose lookup succeeds is non-empty (so Python-truthy). -/
theorem isEmpty_false_of_dictGet {jd : List (String × JValue)} {k : String}
    {v : JValue} (h : dictGet jd k = some v) : jd.isEmpty = false := by
  cases jd with
  | nil => simp [dictGet] at h
  | cons a l => rfl

/-- Shape of a successful buildItems run over aligned inputs: one item per
document, scores exactly the given distances. -/
theorem buildItems_ok_shape (ds : List String) :
    ∀ ms ts items, ms.length = ds.length → ts.length = ds.length →
      MemoryLayer.buildItems ds ms (some ts) = .ok items →
      items.length = ds.length ∧
      items.map (fun it => it.score) = ts := by
  induction ds with
  | nil =>
    intro ms ts items _ hts hok
    simp only [MemoryLayer.buildItems] at hok
    cases hok
    cases ts with
    | nil => simp
    | cons t ts' => simp at hts
  | cons d ds ih =>
    intro ms ts items hms hts hok
    cases ms with
    | nil => simp at hms
    | cons m ms' =>
      cases ts with
      | nil => simp at hts
      | cons t ts' =>
        simp only [MemoryLayer.buildItems] at hok
        cases hrec : MemoryLayer.buildItems ds ms' (some ts') with
        | error e => rw [hrec] at hok; cases hok
        | ok rest =>
          rw [hrec] at hok
          cases hok
          have hms' : ms'.length = ds.length := by simpa using hms
          have hts' : ts'.length = ds.length := by simpa using hts
          obtain ⟨h1, h2⟩ := ih ms' ts' rest hms' hts' hrec
          constructor
          · simpa using h1
          · simpa using h2

/-! The claim theorems. -/

/-- C1: for every input, metadata and oracle outcome, MemoryLayer.add
either appends exactly one record to the store and returns that record's
fact text, or raises with the store exactly as it was — a failure of the
extraction call, the embedding call or the insert never leaves a partial
write. -/
theorem c1_add_atomic (o : MemoryLayer.AddOracle) (store : List MemoryRecord)
    (user_input : String) (metadata : Option (List (String × JValue))) :
    (∃ rec : MemoryRecord,
      (MemoryLayer.add o store user_input metadata).2 = store ++ [rec] ∧
      (MemoryLayer.add o store user_input metadata).1 = .ok rec.fact) ∨
    ((MemoryLayer.add o store user_input metadata).2 = store ∧
      ∃ e, (MemoryLayer.add o store user_input metadata).1 = .error e) := by
  cases ho : o.extractResult with
  | error e => right; simp [MemoryLayer.add, ho]
  | ok fact =>
    cases he : o.embedResult with
    | error e => right; simp [MemoryLayer.add, ho, he]
    | ok vec =>
      cases hi : o.insertError with
      | some e => right; simp [MemoryLayer.add, ho, he, hi]
      | none =>
        left
        refine ⟨⟨o.freshId, fact, vec,
          dictSet (dictSet (metadata.getD []) "original_input"
            (JValue.str user_input)) "timestamp"
            (JValue.str "2024-01-01T12:00:00")⟩, ?_, ?_⟩ <;>
        simp [MemoryLayer.add, ho, he, hi]

/-- C8 (code bug): the stored record carries the fresh id and the supplied
metadata merged with original_input, but its timestamp is the hard-coded
placeholder "2024-01-01T12:00:00" (memory.py line 63), not the capture time
of the call — here a concrete successful add performed with any wall-clock
time stores that constant. -/
theorem c8_timestamp_placeholder :
    MemoryLayer.add sampleAdd [] "Limit is 50k for cement"
        (some [("site", JValue.str "Mumbai")]) =
      (.ok "Cement limit is 50000",
       [⟨"id-1", "Cement limit is 50000", [1],
         [("site", JValue.str "Mumbai"),
          ("original_input", JValue.str "Limit is 50k for cement"),
          ("timestamp", JValue.str "2024-01-01T12:00:00")]⟩]) := rfl

/-- C3: in PENDING_APPROVAL, every reply clears the pending order and
returns to IDLE; a reply whose lower-casing is one of the four affirmative
tokens gets the confirmation response, any other reply the cancellation
response. -/
theorem c3_approval_always_resolves (st : AgentState)
    (order : List (String × JValue)) (input : String)
    (hp : st.pending_order = some order) :
    (handle_approval st input).2.pending_order = none ∧
    (pyLower input ∈ (["yes", "y", "approve", "ok"] : List String) →
      (handle_approval st input).1 =
        .ok ⟨"✅ **Order Confirmed**.\nPlaced order with " ++
          pyStrOpt (dictGet order "selected_vendor") ++ ".",
          "User manually approved."⟩) ∧
    (pyLower input ∉ (["yes", "y", "approve", "ok"] : List String) →
      (handle_approval st input).1 =
        .ok ⟨"❌Order Cancelled.", "User denied."⟩) := by
  by_cases hmem : pyLower input ∈ (["yes", "y", "approve", "ok"] : List String) <;>
    simp [handle_approval, hp, hmem]

/-- Witness for C3 at a concrete pending order and the reply "YES". -/
theorem c3_witness :
    (handle_approval ⟨some [("selected_vendor", JValue.str "BuildCo")], []⟩
        "YES").2.pending_order = none ∧
    (handle_approval ⟨some [("selected_vendor", JValue.str "BuildCo")], []⟩
        "YES").1 =
      .ok ⟨"✅ **Order Confirmed**.\nPlaced order with BuildCo.",
        "User manually approved."⟩ := by
  have h := c3_approval_always_resolves
    ⟨some [("selected_vendor", JValue.str "BuildCo")], []⟩
    [("selected_vendor", JValue.str "BuildCo")] "YES" rfl
  exact ⟨h.1, h.2.1 (by decide)⟩

/-- C4: whenever a pending order exists (it is a decision block, hence a
non-empty dict), get_intent answers APPROVAL_REPLY whatever the
classification oracle would have said — the model is never consulted and no
input can classify as STORE_FACT, PROCUREMENT_REQUEST or CHAT. -/
theorem c4_pending_short_circuits (st : AgentState)
    (po : List (String × JValue)) (hp : st.pending_order = some po)
    (hne : po ≠ []) :
    ∀ classify : Except String String, get_intent st classify = "APPROVAL_REPLY" := by
  intro classify
  cases po with
  | nil => exact absurd rfl hne
  | cons a l => simp [get_intent, pendingTruthy, hp]

/-- Witness for C4: with a pending order stored, even "order cement"
classifies as APPROVAL_REPLY. -/
theorem c4_witness :
    get_intent ⟨some pauseJd, []⟩ (.ok "PROCUREMENT_REQUEST") = "APPROVAL_REPLY" :=
  c4_pending_short_circuits ⟨some pauseJd, []⟩ pauseJd rfl
    (by exact List.cons_ne_nil _ _) (.ok "PROCUREMENT_REQUEST")

/-- C9: with no pending order, a failing classification call yields CHAT,
and so does any reply whose stripped upper-casing contains neither
"STORE_FACT" nor "PROCUREMENT" — classification failure never yields
STORE_FACT or PROCUREMENT_REQUEST. -/
theorem c9_classification_fails_open (st : AgentState)
    (hp : st.pending_order = none) :
    (∀ e, get_intent st (.error e) = "CHAT") ∧
    (∀ reply, strIn "STORE_FACT" (pyUpper (pyStrip reply)) = false →
      strIn "PROCUREMENT" (pyUpper (pyStrip reply)) = false →
      get_intent st (.ok reply) = "CHAT") := by
  constructor
  · intro e; simp [get_intent, pendingTruthy, hp]
  · intro reply h1 h2; simp [get_intent, pendingTruthy, hp, h1, h2]

/-- Witness for C9 at a failing call and an unmatched reply. -/
theorem c9_witness :
    get_intent ⟨none, []⟩ (.error "rate limited") = "CHAT" ∧
    get_intent ⟨none, []⟩ (.ok "I would label this differently") = "CHAT" := by
  have h := c9_classification_fails_open ⟨none, []⟩ rfl
  exact ⟨h.1 "rate limited",
    h.2 "I would label this differently" (by decide) (by decide)⟩

/-- C7: when the agent-loop call raises, process_message catches the error
and returns it as an error response, and the whole orchestrator state —
the pending_order slot included — is exactly what it was before the
call. -/
theorem c7_agent_error_leaves_state (st : AgentState) (input e : String)
    (o : Oracles)
    (hi : get_intent st o.classify = "PROCUREMENT_REQUEST" ∨
      get_intent st o.classify = "CHAT")
    (hrun : o.runner = .error e) :
    process_message st input o = (.ok ⟨"Error: " ++ e, e⟩, st) := by
  rcases hi with h | h <;> simp [process_message, h, hrun]

/-- Witness for C7 at a concrete provider failure. -/
theorem c7_witness :
    process_message ⟨none, []⟩ "order cement"
        ⟨.ok "PROCUREMENT_REQUEST", .error "RateLimitError", sampleAdd⟩ =
      (.ok ⟨"Error: RateLimitError", "RateLimitError"⟩, ⟨none, []⟩) :=
  c7_agent_error_leaves_state ⟨none, []⟩ "order cement" "RateLimitError"
    ⟨.ok "PROCUREMENT_REQUEST", .error "RateLimitError", sampleAdd⟩
    (Or.inl rfl) rfl

/-- C2: from IDLE, a successful agent run whose extracted decision block
has status PAUSE_APPROVAL_NEEDED stores the block as the pending order and
surfaces the approval request ending in "Proceed? (y/n)"; a block with
status ORDER_PLACED leaves pending_order empty and surfaces the order
confirmation. -/
theorem c2_idle_decision_routing (mem : List MemoryRecord)
    (input text : String) (o : Oracles) (jd : List (String × JValue))
    (hi : get_intent ⟨none, mem⟩ o.classify = "PROCUREMENT_REQUEST" ∨
      get_intent ⟨none, mem⟩ o.classify = "CHAT")
    (hrun : o.runner = .ok text)
    (hext : extract_json text = some jd) :
    (dictGet jd "status" = some (JValue.str "PAUSE_APPROVAL_NEEDED") →
      process_message ⟨none, mem⟩ input o =
        (.ok ⟨"⚠️ **Approval Required**\nReason: " ++
            pyStrOpt (dictGet jd "reasoning") ++ "\nCost: " ++
            pyStrOpt (dictGet jd "total_cost") ++ "\nProceed? (y/n)",
          "ADK Agent Response:\n" ++ text⟩,
         ⟨some jd, mem⟩)) ∧
    (dictGet jd "status" = some (JValue.str "ORDER_PLACED") →
      process_message ⟨none, mem⟩ input o =
        (.ok ⟨"✅ **Order Placed**\nVendor: " ++
            pyStrOpt (dictGet jd "selected_vendor") ++ "\nCost: " ++
            pyStrOpt (dictGet jd "total_cost") ++ "\nReason: " ++
            pyStrOpt (dictGet jd "reasoning"),
          "ADK Agent Response:\n" ++ text⟩,
         ⟨none, mem⟩)) := by
  constructor <;> intro hst <;>
    have hne := isEmpty_false_of_dictGet hst <;>
    rcases hi with h | h <;>
    simp [process_message, h, hrun, hext, hne, hst, isPauseStatus]

set_option maxRecDepth 8000 in
/-- Witness for C2 at a concrete run pausing for approval. -/
theorem c2_witness :
    process_message ⟨none, []⟩ "order cement"
        ⟨.ok "PROCUREMENT_REQUEST", .ok pauseText, sampleAdd⟩ =
      (.ok ⟨"⚠️ **Approval Required**\nReason: over limit\nCost: 60000\nProceed? (y/n)",
        "ADK Agent Response:\n" ++ pauseText⟩,
       ⟨some pauseJd, []⟩) :=
  (c2_idle_decision_routing [] "order cement" pauseText
    ⟨.ok "PROCUREMENT_REQUEST", .ok pauseText, sampleAdd⟩ pauseJd
    (Or.inl rfl) rfl rfl).1 rfl

/-- C6 (amended): the orchestrator extracts the decision block by parsing
the single greedy brace span — first opening brace to last closing brace —
as one JSON object; when extraction yields nothing the raw response text is
surfaced unchanged and no state transition occurs. -/
theorem c6_extraction_greedy_span (st : AgentState) (input text : String)
    (o : Oracles)
    (hi : get_intent st o.classify = "PROCUREMENT_REQUEST" ∨
      get_intent st o.classify = "CHAT")
    (hrun : o.runner = .ok text) :
    (extract_json text = none →
      process_message st input o =
        (.ok ⟨text, "ADK Agent Response:\n" ++ text⟩, st)) ∧
    (∀ fields, extract_json text = some fields →
      ∃ span, braceSpan text = some span ∧
        jsonLoads span = some (JValue.obj fields)) := by
  constructor
  · intro hext
    rcases hi with h | h <;> simp [process_message, h, hrun, hext]
  · intro fields hext
    unfold extract_json at hext
    cases hsp : braceSpan text with
    | none => simp [hsp] at hext
    | some span =>
      simp only [hsp] at hext
      refine ⟨span, rfl, ?_⟩
      cases hjl : jsonLoads span with
      | none => simp [hjl] at hext
      | some v =>
        simp only [hjl] at hext
        cases v <;> simp_all

/-- Counterexample for C6 as stated: c6text holds a well-formed last
balanced brace-delimited object with status PAUSE_APPROVAL_NEEDED (the
spec's own extraction rule finds it), yet the code's greedy-span extraction
finds nothing, the raw text is surfaced and no transition to
PENDING_APPROVAL happens. -/
theorem c6_counterexample :
    specLastBalancedBlock c6text =
      some [("status", JValue.str "PAUSE_APPROVAL_NEEDED")] ∧
    extract_json c6text = none ∧
    process_message ⟨none, []⟩ "order cement" c6oracle =
      (.ok ⟨c6text, "ADK Agent Response:\n" ++ c6text⟩, ⟨none, []⟩) :=
  ⟨rfl, rfl, rfl⟩

/-- Witness for C6 (amended) at a response with no brace span. -/
theorem c6_witness :
    process_message ⟨none, []⟩ "hello"
        ⟨.ok "CHAT", .ok "Happy to help with procurement.", sampleAdd⟩ =
      (.ok ⟨"Happy to help with procurement.",
        "ADK Agent Response:\nHappy to help with procurement."⟩,
       ⟨none, []⟩) :=
  (c6_extraction_greedy_span ⟨none, []⟩ "hello" "Happy to help with procurement."
    ⟨.ok "CHAT", .ok "Happy to help with procurement.", sampleAdd⟩
    (Or.inr rfl) rfl).1 rfl

/-- C10 (amended): the status of a non-empty extracted block is never
validated — any status other than the exact string PAUSE_APPROVAL_NEEDED,
a missing one included, surfaces the Order-Placed confirmation (missing
fields rendering as None) and leaves no pending order. -/
theorem c10_unvalidated_status (mem : List MemoryRecord)
    (input text : String) (o : Oracles) (jd : List (String × JValue))
    (hi : get_intent ⟨none, mem⟩ o.classify = "PROCUREMENT_REQUEST" ∨
      get_intent ⟨none, mem⟩ o.classify = "CHAT")
    (hrun : o.runner = .ok text)
    (hext : extract_json text = some jd) (hne : jd ≠ [])
    (hstat : isPauseStatus (dictGet jd "status") = false) :
    process_message ⟨none, mem⟩ input o =
      (.ok ⟨"✅ **Order Placed**\nVendor: " ++
          pyStrOpt (dictGet jd "selected_vendor") ++ "\nCost: " ++
          pyStrOpt (dictGet jd "total_cost") ++ "\nReason: " ++
          pyStrOpt (dictGet jd "reasoning"),
        "ADK Agent Response:\n" ++ text⟩,
       ⟨none, mem⟩) := by
  have hne' : jd.isEmpty = false := by
    cases jd with
    | nil => exact absurd rfl hne
    | cons a l => rfl
  rcases hi with h | h <;>
    simp [process_message, h, hrun, hext, hne', hstat]

/-- Counterexample for C10 as stated: the code renders missing decision
fields as "None", not as empty, and an extracted empty object is falsy, so
it surfaces the raw text rather than any confirmation. -/
theorem c10_counterexample :
    process_message ⟨none, []⟩ "buy" c10oracleA =
      (.ok ⟨"✅ **Order Placed**\nVendor: None\nCost: 5\nReason: None",
        "ADK Agent Response:\n" ++ c10textA⟩,
       ⟨none, []⟩) ∧
    ("✅ **Order Placed**\nVendor: None\nCost: 5\nReason: None" ≠
      "✅ **Order Placed**\nVendor: \nCost: 5\nReason: ") ∧
    extract_json c10textB = some [] ∧
    process_message ⟨none, []⟩ "buy" c10oracleB =
      (.ok ⟨c10textB, "ADK Agent Response:\n" ++ c10textB⟩, ⟨none, []⟩) :=
  ⟨rfl, by decide, rfl, rfl⟩

/-- Witness for C10 (amended) at a block missing status, vendor and
reasoning. -/
theorem c10_witness :
    process_message ⟨none, []⟩ "buy" c10oracleA =
      (.ok ⟨"✅ **Order Placed**\nVendor: None\nCost: 5\nReason: None",
        "ADK Agent Response:\n" ++ c10textA⟩,
       ⟨none, []⟩) :=
  c10_unvalidated_status [] "buy" c10textA c10oracleA
    [("total_cost", JValue.int 5)] (Or.inr rfl) rfl rfl
    (by exact List.cons_ne_nil _ _) rfl

/-- C5: search never returns more than min(limit, count) items and returns
them in ascending distance order whenever the black-box store honours its
query contract; the empty store answers the empty list with zero calls to
the embedding provider. -/
theorem c5_search_bounded_sorted (o : MemoryLayer.SearchOracle)
    (store : List MemoryRecord) (query : String) (limit : Nat) :
    (store = [] → MemoryLayer.search o store query limit = (.ok [], 0)) ∧
    (∀ items, MemoryLayer.QueryContract (min limit store.length) o.queryResult →
      (MemoryLayer.search o store query limit).1 = .ok items →
      items.length ≤ min limit store.length ∧
      List.Sorted (· ≤ ·) (items.map (fun it => it.score))) := by
  constructor
  · intro h; subst h; rfl
  · intro items hc hok
    by_cases hs : store.length = 0
    · have : items = [] := by
        simp [MemoryLayer.search, hs] at hok
        exact hok
      subst this
      simp
    · cases he : o.embedResult with
      | error e => simp [MemoryLayer.search, hs, he] at hok
      | ok v =>
        by_cases hn : min limit store.length = 0
        · simp [MemoryLayer.search, hs, he, hn] at hok
        · have hok' : MemoryLayer.reformat o.queryResult = .ok items := by
            simpa [MemoryLayer.search, hs, he, hn] using hok
          obtain ⟨d0, m0, t0, hd, hm, ht, hlen, hml, htl, hsort⟩ := hc
          cases d0 with
          | nil =>
            have : items = [] := by
              simp [MemoryLayer.reformat, hd] at hok'
              exact hok'
            subst this
            simp
          | cons a ds =>
            rw [MemoryLayer.reformat, hd, hm, ht] at hok'
            obtain ⟨h1, h2⟩ :=
              buildItems_ok_shape (a :: ds) m0 t0 items hml htl hok'
            refine ⟨?_, ?_⟩
            · rw [h1]; exact hlen
            · rw [h2]; exact hsort

/-- Witness for C5 at a two-record store queried with the default limit. -/
theorem c5_witness :
    (MemoryLayer.search searchOracle searchStore "rules for Mumbai site" 3).1 =
      .ok searchItems ∧
    searchItems.length ≤ min 3 searchStore.length ∧
    List.Sorted (· ≤ ·) (searchItems.map (fun it => it.score)) := by
  have h := (c5_search_bounded_sorted searchOracle searchStore
      "rules for Mumbai site" 3).2 searchItems
    ⟨["fact one", "fact two"], [[], []], [0, 1], rfl, rfl, rfl,
      by decide, rfl, rfl, by decide⟩ rfl
  exact ⟨rfl, h.1, h.2⟩

end Proc
